import Mathlib

/-!
Verification development for the alert dispatch core of `src/app/main.py`
(spell_hunter_bot). The Python source is shallowly embedded below:
the `Notification` dataclass, the `heapq`-backed `queue.PriorityQueue`
used by `AlertSystem` (modelled faithfully, including the fact that the
heap compares `(priority, Notification)` tuples with Python tuple
comparison, where comparing two `Notification` values raises `TypeError`
because the dataclass defines no ordering), the `_last_alert` dict, and
the methods `notify`, `add_notifier` and the body of `_process_queue`,
plus `TelegramNotifier.send` and the channel registration in `main`.
Exceptions are modelled with `Except`; wall-clock time is an explicit
`Int` parameter standing for `time.time()` during a call.
-/

namespace SpellHunter

/-- The `Notification` dataclass of the source: `message: str`,
`priority: int = 1`.  `@dataclass` generates structural equality but no
ordering. -/
structure Notification where
  message : String
  priority : Nat
deriving DecidableEq, Inhabited

/-- A pending-queue entry, the `(priority, Notification(message, priority))`
tuple that `AlertSystem.notify` puts on the `PriorityQueue`. -/
abbrev Entry := Nat × Notification

/-- Python `<` on an `(int, Notification)` tuple pair, as used by `heapq`
inside `queue.PriorityQueue`.  Tuple comparison walks the components:
if the integer priorities differ the integers decide; if they are equal,
Python moves to the `Notification` components, where `==` (dataclass
equality) can still discharge the comparison when the two notifications
are equal, but two distinct notifications raise
`TypeError: not supported between instances of Notification`
because the dataclass defines no `__lt__`.  The raised error is the
`.error` case. -/
def entryLt (a b : Entry) : Except Unit Bool :=
  if a.1 = b.1 then
    if a.2 = b.2 then .ok false else .error ()
  else .ok (decide (a.1 < b.1))

/-- The shifting loop of CPython `heapq._siftdown`: walk from `pos` up
toward `startpos`, moving each parent that compares greater than
`newitem` down a level, and finally store `newitem` at the resting
position.  A comparison `TypeError` propagates.  `fuel` bounds the loop;
every caller passes at least `pos + 1`, which the strictly decreasing
position makes sufficient, so the fuel-exhausted branch is unreachable. -/
def siftdownGo (newitem : Entry) (startpos : Nat) :
    Nat → List Entry → Nat → Except Unit (List Entry)
  | 0, heap, pos => .ok (heap.set pos newitem)
  | fuel + 1, heap, pos =>
    if startpos < pos then
      let parentpos := (pos - 1) / 2
      let parent := heap.getD parentpos default
      match entryLt newitem parent with
      | .error e => .error e
      | .ok true => siftdownGo newitem startpos fuel (heap.set pos parent) parentpos
      | .ok false => .ok (heap.set pos newitem)
    else .ok (heap.set pos newitem)

/-- CPython `heapq.heappush`: append the item and sift it down toward the
root.  This is exactly what `queue.PriorityQueue.put` runs under its
internal mutex. -/
def heappush (heap : List Entry) (item : Entry) : Except Unit (List Entry) :=
  let h := heap ++ [item]
  siftdownGo item 0 h.length h (h.length - 1)

/-- The child-promotion loop of CPython `heapq._siftup`: starting from
`pos`, repeatedly move the smaller child up into `pos` and descend to
that child, until running past the end of the heap.  Returns the shifted
heap together with the final position.  Comparisons between the two
children can raise, which propagates. -/
def siftupGoLoop : Nat → List Entry → Nat → Except Unit (List Entry × Nat)
  | 0, heap, pos => .ok (heap, pos)
  | fuel + 1, heap, pos =>
    let endpos := heap.length
    let childpos := 2 * pos + 1
    if childpos < endpos then
      let rightpos := childpos + 1
      match (if rightpos < endpos then
               (entryLt (heap.getD childpos default) (heap.getD rightpos default)).map
                 (fun b => !b)
             else .ok false) with
      | .error e => .error e
      | .ok useRight =>
        let cp := if useRight then rightpos else childpos
        siftupGoLoop fuel (heap.set pos (heap.getD cp default)) cp
    else .ok (heap, pos)

/-- CPython `heapq._siftup heap pos`: record `newitem = heap[pos]`, run
the child-promotion loop, write `newitem` at the final position and sift
it down toward the original position.  (`siftdownGo` never reads the slot
it finally writes, so passing the unwritten heap is equivalent to the
imperative original, which stores `newitem` first.) -/
def siftup (heap : List Entry) (pos : Nat) : Except Unit (List Entry) :=
  let newitem := heap.getD pos default
  match siftupGoLoop heap.length heap pos with
  | .error e => .error e
  | .ok (h, p) => siftdownGo newitem pos (p + 1) h p

/-- `queue.PriorityQueue.get` as run by `_process_queue`: on an empty
queue the timed wait raises `queue.Empty` (modelled as `.ok none`);
otherwise CPython `heapq.heappop` runs: pop the last element, and if the
heap is still nonempty, take the root as the return item, move the last
element to the root and sift it up.  A comparison `TypeError` inside the
sift propagates out of `get` (the `.error` case). -/
def heappop (heap : List Entry) : Except Unit (Option (Entry × List Entry)) :=
  match heap with
  | [] => .ok none
  | _ :: _ =>
    let lastelt := heap.getLastD default
    let rest := heap.dropLast
    match rest with
    | [] => .ok (some (lastelt, []))
    | _ :: _ =>
      let returnitem := rest.headD default
      let h1 := rest.set 0 lastelt
      match siftup h1 0 with
      | .error e => .error e
      | .ok h2 => .ok (some (returnitem, h2))

/-- Python `dict.get(k, dflt)` on the `_last_alert` dict, modelled as an
association list. -/
def dictGet (d : List (String × Int)) (k : String) (dflt : Int) : Int :=
  (d.lookup k).getD dflt

/-- Python `d[k] = v` on the `_last_alert` dict: update the existing
entry in place, otherwise append a fresh entry (dict insertion order). -/
def dictSet (d : List (String × Int)) (k : String) (v : Int) : List (String × Int) :=
  if d.any (fun p => p.1 == k) then
    d.map (fun p => if p.1 == k then (k, v) else p)
  else d ++ [(k, v)]

/-- The mutable state of `AlertSystem`, polymorphic over the notifier
(channel) type `χ`: `self.notifiers`, the backing list of the
`PriorityQueue`, the `self._running` flag, and the `self._last_alert`
dict.  The worker thread object itself carries no further state. -/
structure AlertSystem (χ : Type) where
  notifiers : List χ
  pqueue : List Entry
  running : Bool
  lastAlert : List (String × Int)
deriving DecidableEq

/-- `AlertSystem.__init__`: empty notifier list, empty queue, `_running`
set to `True` (and never touched again anywhere in the class), empty
`_last_alert` dict. -/
def AlertSystem.init (χ : Type) : AlertSystem χ :=
  { notifiers := [], pqueue := [], running := true, lastAlert := [] }

variable {χ : Type}

/-- `AlertSystem.add_notifier`: append to `self.notifiers`. -/
def AlertSystem.add_notifier (s : AlertSystem χ) (c : χ) : AlertSystem χ :=
  { s with notifiers := s.notifiers ++ [c] }

/-- The enqueue tail of `AlertSystem.notify`:
`priority = 0 if is_critical else 1;`
`self._queue.put((priority, Notification(message, priority)))`.
The `put` runs `heappush`, whose tie comparison can raise; the raised
`TypeError` propagates to the caller of `notify` (the `.error` case). -/
def putNotification (s : AlertSystem χ) (msg : String) (is_critical : Bool) :
    Except Unit (AlertSystem χ) :=
  let priority : Nat := if is_critical then 0 else 1
  match heappush s.pqueue (priority, { message := msg, priority := priority }) with
  | .ok h => .ok { s with pqueue := h }
  | .error e => .error e

/-- `AlertSystem.notify(message, is_critical=False, product_url=None)`.
`if product_url:` is Python truthiness, so `None` and the empty string
skip the cooldown block.  Otherwise: read
`last_time = self._last_alert.get(product_url, 0)`; if
`time.time() - last_time < 1800` log and return (suppressed, state
unchanged); else record `self._last_alert[product_url] = time.time()`
and fall through to the enqueue.  `now` stands for `time.time()` during
the call. -/
def AlertSystem.notify (s : AlertSystem χ) (msg : String) (is_critical : Bool)
    (product_url : Option String) (now : Int) : Except Unit (AlertSystem χ) :=
  match product_url with
  | none => putNotification s msg is_critical
  | some u =>
    if u.isEmpty then putNotification s msg is_critical
    else
      let last := dictGet s.lastAlert u 0
      if now - last < 1800 then .ok s
      else putNotification { s with lastAlert := dictSet s.lastAlert u now } msg is_critical

/-- One iteration of the `while self._running:` body of
`AlertSystem._process_queue`, with channel delivery abstracted by the
oracle `send` (one `notifier.send(note)` outcome per channel).  On
`queue.Empty` the loop just continues (`.ok (s, none)`); on a received
item, `executor.submit(notifier.send, note)` is called once per
registered notifier — the resulting futures are never inspected, so a
channel exception is swallowed by the executor and only the attempt
outcomes (returned here for observation) exist.  A `TypeError` raised
inside `get` by the heap sift is the only uncaught exception
(`.error`), since the `except` clause catches `queue.Empty` alone. -/
def AlertSystem.process_queue_step (send : χ → Notification → Except String Unit)
    (s : AlertSystem χ) :
    Except Unit (AlertSystem χ × Option (Notification × List (χ × Except String Unit))) :=
  if s.running then
    match heappop s.pqueue with
    | .error e => .error e
    | .ok none => .ok (s, none)
    | .ok (some (entry, h)) =>
      .ok ({ s with pqueue := h },
           some (entry.2, s.notifiers.map (fun c => (c, send c entry.2))))
  else .ok (s, none)

/-- The complete public surface of `AlertSystem` after construction, as
defined in the source: `notify`, `add_notifier`, and the background loop
body.  The class defines no `stop` (or any other) method, so there is no
further operation to enumerate. -/
inductive Op (χ : Type) where
  | notify (msg : String) (is_critical : Bool) (product_url : Option String) (now : Int)
  | add_notifier (c : χ)
  | loop_step (send : χ → Notification → Except String Unit)

/-- Apply one operation to the state.  When an operation raises (the
heap-tie `TypeError`), the exception propagates to its caller without
touching `_running`, so the state is kept. -/
def applyOp (s : AlertSystem χ) : Op χ → AlertSystem χ
  | .notify msg c u now =>
    match AlertSystem.notify s msg c u now with
    | .ok s2 => s2
    | .error _ => s
  | .add_notifier c => s.add_notifier c
  | .loop_step send =>
    match s.process_queue_step send with
    | .ok (s2, _) => s2
    | .error _ => s

/-- Run a sequence of operations from a state. -/
def applyOps (s : AlertSystem χ) (ops : List (Op χ)) : AlertSystem χ :=
  ops.foldl applyOp s

/-- Python truthiness test `not x` for an optional string: `None` and
the empty string are falsy. -/
def optFalsy : Option String → Bool
  | none => true
  | some s => s.isEmpty

/-- `TelegramNotifier.__init__(token, chat_id)`: both resolved once at
construction (from `os.getenv`, hence possibly absent). -/
structure TelegramNotifier where
  token : Option String
  chat_id : Option String
deriving DecidableEq

/-- Observable outcome of one `TelegramNotifier.send` call: whether
`requests.post` was invoked, and the error-log line if the post raised. -/
structure SendOutcome where
  attempted : Bool
  failureLogged : Option String
deriving DecidableEq

/-- `TelegramNotifier.send(notification)`.
`if not self.token or not self.chat_id: return` — a silent no-op that
never reaches the network code.  Otherwise the Telegram URL is built
and `requests.post` (the oracle `net`, taking url, chat id and text, and
either returning or raising) runs inside `try`; `except Exception`
catches any failure and logs it.  The outer `Except` layer is the
exception channel out of `send`: no branch ever produces `.error`. -/
def TelegramNotifier.send (t : TelegramNotifier) (note : Notification)
    (net : String → String → String → Except String Unit) : Except String SendOutcome :=
  if optFalsy t.token || optFalsy t.chat_id then .ok { attempted := false, failureLogged := none }
  else
    let url := "https://api.telegram.org/bot" ++ t.token.getD ("") ++ "/sendMessage"
    match net url (t.chat_id.getD ("")) note.message with
    | .ok _ => .ok { attempted := true, failureLogged := none }
    | .error e => .ok { attempted := true, failureLogged := some (("[TELEGRAM] Falha: ") ++ e) }

/-- The channels `main()` can register. -/
inductive RegChannel where
  | console
  | telegram (t : TelegramNotifier)
deriving DecidableEq

/-- Does a registry entry hold the chat-bot channel? -/
def RegChannel.isTelegram : RegChannel → Bool
  | .console => false
  | .telegram _ => true

/-- The channel registry built at startup by `main()`:
`alerts.add_notifier(ConsoleNotifier())` always;
`if config.get_token(): alerts.add_notifier(TelegramNotifier(config.get_token(), config.get_chat_id()))`
— the guard tests the truthiness of the token alone. -/
def mainChannels (token chat_id : Option String) : List RegChannel :=
  let base := [RegChannel.console]
  if optFalsy token then base
  else base ++ [RegChannel.telegram { token := token, chat_id := chat_id }]

/-- Two producer threads A and B each execute the cooldown block of
`AlertSystem.notify` (source lines 91–96) for the same tracked subject
key, under the interleaving: A reads the dict entry, B reads the dict
entry, A tests and writes, B tests and writes.  Each single dict
operation is atomic under the interpreter lock, but the source holds no
lock across the read–test–write sequence, so this schedule is a legal
execution.  Returns whether each caller passed the cooldown check and
the final `_last_alert` map; a passing caller goes on to enqueue. -/
def notifyRaceSchedule (m : List (String × Int)) (u : String) (tA tB : Int) :
    Bool × Bool × List (String × Int) :=
  let lastA := dictGet m u 0
  let lastB := dictGet m u 0
  let passA := !(decide (tA - lastA < 1800))
  let m1 := if passA then dictSet m u tA else m
  let passB := !(decide (tB - lastB < 1800))
  let m2 := if passB then dictSet m1 u tB else m1
  (passA, passB, m2)

/-! ## Helper lemmas -/

theorem siftdownGo_length (item : Entry) (st : Nat) :
    ∀ (fuel : Nat) (h : List Entry) (p : Nat) (h2 : List Entry),
      siftdownGo item st fuel h p = .ok h2 → h2.length = h.length := by
  intro fuel
  induction fuel with
  | zero =>
    intro h p h2 heq
    simp only [siftdownGo] at heq
    cases heq
    simp
  | succ n ih =>
    intro h p h2 heq
    simp only [siftdownGo] at heq
    split at heq
    · split at heq
      · exact absurd heq (by simp)
      · have := ih _ _ _ heq
        simpa using this
      · cases heq
        simp
    · cases heq
      simp

theorem heappush_length (h : List Entry) (e : Entry) (h2 : List Entry)
    (heq : heappush h e = .ok h2) : h2.length = h.length + 1 := by
  unfold heappush at heq
  have := siftdownGo_length e 0 _ _ _ _ heq
  simpa using this

theorem lookup_map_update (d : List (String × Int)) (k k' : String) (v : Int)
    (hne : k' ≠ k) :
    (d.map (fun p => if p.1 == k then (k, v) else p)).lookup k' = d.lookup k' := by
  induction d with
  | nil => rfl
  | cons a t ih =>
    obtain ⟨ak, av⟩ := a
    simp only [List.map_cons]
    by_cases hak : ak = k
    · subst hak
      rw [if_pos (by simp)]
      have h1 : (k' == ak) = false := by simpa using hne
      simp only [List.lookup, h1, ih]
    · rw [if_neg (by simpa using hak)]
      cases h3 : k' == ak with
      | true => simp only [List.lookup, h3]
      | false => simp only [List.lookup, h3, ih]

theorem lookup_append_single (d : List (String × Int)) (k k' : String) (v : Int)
    (hne : k' ≠ k) :
    (d ++ [(k, v)]).lookup k' = d.lookup k' := by
  induction d with
  | nil =>
    have h1 : (k' == k) = false := by simpa using hne
    simp [List.lookup, h1]
  | cons a t ih =>
    obtain ⟨ak, av⟩ := a
    simp only [List.cons_append, List.lookup]
    cases h3 : k' == ak with
    | true => rfl
    | false => exact ih

theorem lookup_dictSet_ne (d : List (String × Int)) (k k' : String) (v : Int)
    (hne : k' ≠ k) :
    (dictSet d k v).lookup k' = d.lookup k' := by
  unfold dictSet
  split
  · exact lookup_map_update d k k' v hne
  · exact lookup_append_single d k k' v hne

theorem notify_tracked_suppressed (s : AlertSystem χ) (msg : String) (c : Bool)
    (u : String) (now : Int) (hu : u.isEmpty = false)
    (hcd : now - dictGet s.lastAlert u 0 < 1800) :
    AlertSystem.notify s msg c (some u) now = .ok s := by
  simp [AlertSystem.notify, hu, hcd]

theorem notify_tracked_accepted (s : AlertSystem χ) (msg : String) (c : Bool)
    (u : String) (now : Int) (hu : u.isEmpty = false)
    (hcd : ¬ now - dictGet s.lastAlert u 0 < 1800) :
    AlertSystem.notify s msg c (some u) now =
      putNotification { s with lastAlert := dictSet s.lastAlert u now } msg c := by
  simp [AlertSystem.notify, hu, hcd]

theorem putNotification_ok_parts (s : AlertSystem χ) (msg : String) (c : Bool)
    (s2 : AlertSystem χ) (h : putNotification s msg c = .ok s2) :
    s2.notifiers = s.notifiers ∧ s2.running = s.running ∧ s2.lastAlert = s.lastAlert ∧
      s2.pqueue.length = s.pqueue.length + 1 := by
  unfold putNotification at h
  split at h <;> dsimp only [] at h <;> split at h
  case isTrue.h_1 x hl heq =>
    cases h
    exact ⟨rfl, rfl, rfl, heappush_length _ _ _ heq⟩
  case isTrue.h_2 => simp at h
  case isFalse.h_1 x hl heq =>
    cases h
    exact ⟨rfl, rfl, rfl, heappush_length _ _ _ heq⟩
  case isFalse.h_2 => simp at h

theorem notify_ok_running (s : AlertSystem χ) (msg : String) (c : Bool)
    (u : Option String) (now : Int) (s2 : AlertSystem χ)
    (h : AlertSystem.notify s msg c u now = .ok s2) : s2.running = s.running := by
  cases u with
  | none => exact (putNotification_ok_parts _ _ _ _ h).2.1
  | some u =>
    by_cases hu : u.isEmpty
    · have h2 : putNotification s msg c = .ok s2 := by
        simpa [AlertSystem.notify, hu] using h
      exact (putNotification_ok_parts _ _ _ _ h2).2.1
    · have hu2 : u.isEmpty = false := by simpa using hu
      by_cases hcd : now - dictGet s.lastAlert u 0 < 1800
      · rw [notify_tracked_suppressed s msg c u now hu2 hcd] at h
        cases h
        rfl
      · rw [notify_tracked_accepted s msg c u now hu2 hcd] at h
        exact (putNotification_ok_parts _ _ _ _ h).2.1

theorem process_step_ok_running (send : χ → Notification → Except String Unit)
    (s : AlertSystem χ) (s2 : AlertSystem χ)
    (r : Option (Notification × List (χ × Except String Unit)))
    (h : s.process_queue_step send = .ok (s2, r)) : s2.running = s.running := by
  unfold AlertSystem.process_queue_step at h
  split at h
  · split at h
    · exact absurd h (by simp)
    · cases h; rfl
    · cases h; rfl
  · cases h; rfl

theorem applyOp_running (s : AlertSystem χ) (o : Op χ) :
    (applyOp s o).running = s.running := by
  cases o with
  | notify msg c u now =>
    simp only [applyOp]
    split
    next s2 heq => exact notify_ok_running _ _ _ _ _ _ heq
    next => rfl
  | add_notifier c => rfl
  | loop_step send =>
    simp only [applyOp]
    split
    next s2 r heq => exact process_step_ok_running _ _ _ _ heq
    next => rfl

theorem applyOps_running (s : AlertSystem χ) (ops : List (Op χ)) :
    (applyOps s ops).running = s.running := by
  induction ops generalizing s with
  | nil => rfl
  | cons o t ih =>
    have h1 : applyOps s (o :: t) = applyOps (applyOp s o) t := rfl
    rw [h1, ih, applyOp_running]

/-! ## Claims -/

/-- C1: the claim asserts that a recording channel observes delivery
order C, A, B for the enqueue sequence [Info(A), Info(B), Critical(C)],
with Critical before earlier Info and FIFO among equal priorities.  The
code cannot realize this: the pending queue stores `(priority,
Notification)` tuples and `Notification` (a dataclass without `order`)
has no `__lt__`, so already the second Info enqueue compares two
equal-priority entries with distinct messages and raises `TypeError`
out of `notify` — the claimed input sequence cannot even be enqueued.
First conjunct: the first Info enqueue succeeds; second conjunct: the
second one raises. -/
theorem C1_priority_tie_typeerror :
    AlertSystem.notify (AlertSystem.init Unit) ("A") false none 0 =
      .ok { notifiers := [], pqueue := [(1, { message := "A", priority := 1 })],
            running := true, lastAlert := [] } ∧
    Except.bind (AlertSystem.notify (AlertSystem.init Unit) ("A") false none 0)
      (fun s => AlertSystem.notify s ("B") false none 0) = .error () :=
  ⟨rfl, rfl⟩

/-- C2 counterexample: the claim says two `notify("x", subject u)` calls
within 1800 seconds enqueue exactly one notification.  At simulated
clock values 0 and 10 (both within 1800 of the epoch default timestamp
0 that `_last_alert.get(u, 0)` yields for a never-seen key), both calls
are suppressed and the queue stays empty: zero notifications are
enqueued, not one. -/
theorem C2_zero_enqueued_at_epoch :
    Except.bind (AlertSystem.notify (AlertSystem.init Unit) ("x") false (some ("u")) 0)
      (fun s => AlertSystem.notify s ("x") false (some ("u")) 10) =
      .ok (AlertSystem.init Unit) ∧ (AlertSystem.init Unit).pqueue.length = 0 :=
  ⟨rfl, rfl⟩

/-- C2 (amended): a notify call for subject key u is suppressed iff
`now - last < 1800` where `last` is the recorded last-accepted time,
defaulting to 0 when none exists; consequently — provided the first
call happens at a clock value of at least 1800, so that the epoch
default does not suppress it — two calls within 1800 seconds enqueue
exactly one notification, and a further call at least 1800 seconds
after the first enqueues a second one.  The three conjuncts trace the
spec's scenario: first call accepted (queue length 1, timestamp
recorded), second call within the window suppressed (state unchanged),
third call after the window accepted (queue length 2, timestamp
refreshed). -/
theorem C2_cooldown_window_amended (u : String) (t0 t1 t2 : Int)
    (hu : u.isEmpty = false) (h0 : 1800 ≤ t0) (h1 : t1 - t0 < 1800)
    (h2 : 1800 ≤ t2 - t0) :
    AlertSystem.notify (AlertSystem.init Unit) ("x") false (some u) t0 =
      .ok ({ notifiers := [], pqueue := [(1, { message := "x", priority := 1 })],
             running := true, lastAlert := [(u, t0)] }) ∧
    AlertSystem.notify
      (({ notifiers := [], pqueue := [(1, { message := "x", priority := 1 })],
          running := true, lastAlert := [(u, t0)] } : AlertSystem Unit)) ("x") false (some u) t1 =
      .ok ({ notifiers := [], pqueue := [(1, { message := "x", priority := 1 })],
             running := true, lastAlert := [(u, t0)] }) ∧
    AlertSystem.notify
      (({ notifiers := [], pqueue := [(1, { message := "x", priority := 1 })],
          running := true, lastAlert := [(u, t0)] } : AlertSystem Unit)) ("x") false (some u) t2 =
      .ok ({ notifiers := [], pqueue := [(1, { message := "x", priority := 1 }),
               (1, { message := "x", priority := 1 })],
             running := true, lastAlert := [(u, t2)] }) := by
  have hget0 : dictGet (AlertSystem.init Unit).lastAlert u 0 = 0 := rfl
  have hcd0 : ¬ t0 - dictGet (AlertSystem.init Unit).lastAlert u 0 < 1800 := by
    rw [hget0]; omega
  have hgetA : dictGet [(u, t0)] u 0 = t0 := by
    simp [dictGet, List.lookup]
  refine ⟨?_, ?_, ?_⟩
  · rw [notify_tracked_accepted (AlertSystem.init Unit) ("x") false u t0 hu hcd0]
    show putNotification
      ({ notifiers := [], pqueue := [], running := true,
         lastAlert := dictSet [] u t0 }) ("x") false = _
    rw [show dictSet ([] : List (String × Int)) u t0 = [(u, t0)] by simp [dictSet]]
    rfl
  · exact notify_tracked_suppressed _ ("x") false u t1 hu
      (by show t1 - dictGet [(u, t0)] u 0 < 1800
          rw [hgetA]; omega)
  · rw [notify_tracked_accepted _ ("x") false u t2 hu
      (by show ¬ t2 - dictGet [(u, t0)] u 0 < 1800
          rw [hgetA]; omega)]
    show putNotification
      ({ notifiers := [], pqueue := [(1, { message := "x", priority := 1 })],
         running := true, lastAlert := dictSet [(u, t0)] u t2 }) ("x") false = _
    rw [show dictSet [(u, t0)] u t2 = [(u, t2)] by simp [dictSet]]
    simp [putNotification, heappush, siftdownGo, entryLt]

/-- C2 witness: the amended scenario at clock values 1800, 1801 and
3600 for subject key u. -/
theorem C2_cooldown_window_amended_witness :
    AlertSystem.notify (AlertSystem.init Unit) ("x") false (some ("u")) 1800 =
      .ok ({ notifiers := [], pqueue := [(1, { message := "x", priority := 1 })],
             running := true, lastAlert := [("u", 1800)] }) ∧
    AlertSystem.notify
      (({ notifiers := [], pqueue := [(1, { message := "x", priority := 1 })],
          running := true, lastAlert := [("u", 1800)] } : AlertSystem Unit)) ("x") false (some ("u")) 1801 =
      .ok ({ notifiers := [], pqueue := [(1, { message := "x", priority := 1 })],
             running := true, lastAlert := [("u", 1800)] }) ∧
    AlertSystem.notify
      (({ notifiers := [], pqueue := [(1, { message := "x", priority := 1 })],
          running := true, lastAlert := [("u", 1800)] } : AlertSystem Unit)) ("x") false (some ("u")) 3600 =
      .ok ({ notifiers := [], pqueue := [(1, { message := "x", priority := 1 }),
               (1, { message := "x", priority := 1 })],
             running := true, lastAlert := [("u", 3600)] }) :=
  C2_cooldown_window_amended ("u") 1800 1801 3600 rfl (by norm_num) (by norm_num) (by norm_num)

/-- C3: the claim says the dispatcher exposes an idempotent `stop()`
that drains and signals the loop to exit.  The source class defines no
`stop` method at all: its entire public surface after construction is
`notify`, `add_notifier` and the loop body (the `Op` type), and
`_running` — the only flag the `while` loop consults — is set to `True`
in `__init__` and never written again, so no operation sequence can
ever signal the dispatch loop to exit. -/
theorem C3_running_never_cleared :
    ∀ (χ : Type) (ops : List (Op χ)), (applyOps (AlertSystem.init χ) ops).running = true := by
  intro χ ops
  rw [applyOps_running]
  rfl

/-- C4: channel isolation and fire-and-forget.  For any behavior of the
channels (`send` may raise on any of them), one dispatch-loop iteration
on a nonempty queue attempts every registered channel exactly once, in
registry order, with no retry (the result list is exactly one `send`
outcome per notifier); the step never propagates a channel failure (the
result is `.ok` for every oracle) and leaves `_running` untouched, so a
failing channel neither stops the loop, nor blocks the other channels,
nor reaches the `notify` caller, which interacts only with the queue. -/
theorem C4_channel_isolation (χ : Type) (send : χ → Notification → Except String Unit)
    (s : AlertSystem χ) (e : Entry) (h : List Entry)
    (hrun : s.running = true)
    (hpop : heappop s.pqueue = .ok (some (e, h))) :
    s.process_queue_step send =
      .ok ({ s with pqueue := h },
           some (e.2, s.notifiers.map (fun c => (c, send c e.2)))) := by
  unfold AlertSystem.process_queue_step
  rw [if_pos hrun, hpop]

/-- C4 witness: two channels, the first always failing; the step still
attempts both, records the failure of channel 0 and the success of
channel 1, and keeps running. -/
theorem C4_channel_isolation_witness :
    AlertSystem.process_queue_step
        (fun (c : Nat) (_ : Notification) => if c = 0 then .error ("boom") else .ok ())
        { notifiers := [0, 1], pqueue := [(0, { message := "c", priority := 0 })],
          running := true, lastAlert := [] } =
      .ok ({ notifiers := [0, 1], pqueue := [], running := true, lastAlert := [] },
           some ({ message := "c", priority := 0 },
                 [(0, .error ("boom")), (1, .ok ())])) := by
  have h := C4_channel_isolation Nat
      (fun c _ => if c = 0 then .error ("boom") else .ok ())
      { notifiers := [0, 1], pqueue := [(0, { message := "c", priority := 0 })],
        running := true, lastAlert := [] }
      (0, { message := "c", priority := 0 }) [] rfl rfl
  exact h

/-- C5: untracked alerts do bypass the cooldown — with `product_url`
absent or empty the cooldown block is skipped entirely, for every state
and clock (first two conjuncts) — but the claim's conclusion "the
notification is always enqueued" fails: the same heap-tie `TypeError`
as in C1 fires when an equal-priority notification with a different
message is still pending, so the second of two rapid untracked calls
raises instead of enqueuing (last two conjuncts). -/
theorem C5_untracked_bypass_and_crash :
    (∀ (χ : Type) (s : AlertSystem χ) (msg : String) (c : Bool) (now : Int),
        AlertSystem.notify s msg c none now = putNotification s msg c) ∧
    (∀ (χ : Type) (s : AlertSystem χ) (msg : String) (c : Bool) (now : Int),
        AlertSystem.notify s msg c (some ("")) now = putNotification s msg c) ∧
    AlertSystem.notify (AlertSystem.init Unit) ("m1") false none 0 =
      .ok { notifiers := [], pqueue := [(1, { message := "m1", priority := 1 })],
            running := true, lastAlert := [] } ∧
    Except.bind (AlertSystem.notify (AlertSystem.init Unit) ("m1") false none 0)
      (fun s => AlertSystem.notify s ("m2") false none 5) = .error () :=
  ⟨fun _ _ _ _ _ => rfl, fun _ _ _ _ _ => rfl, rfl, rfl⟩

/-- C6: cooldown frame and isolation.  A notify call for tracked subject
key u touches at most the `_last_alert` entry for u: for every other key
v, the stored entry (hence the suppression decision for v, which reads
only that entry) is unchanged by any successful call for u — so alerts
for two distinct subject keys never suppress each other.  And a
suppressed call has no side effect at all: the returned state is the
input state, with the cooldown window not reset and the queue untouched. -/
theorem C6_cooldown_frame (χ : Type) (s : AlertSystem χ) (msg : String) (c : Bool)
    (u v : String) (now : Int) (hu : u.isEmpty = false) (hv : v ≠ u) :
    (∀ s2, AlertSystem.notify s msg c (some u) now = .ok s2 →
        dictGet s2.lastAlert v 0 = dictGet s.lastAlert v 0) ∧
    (now - dictGet s.lastAlert u 0 < 1800 →
        AlertSystem.notify s msg c (some u) now = .ok s) := by
  constructor
  · intro s2 h
    by_cases hcd : now - dictGet s.lastAlert u 0 < 1800
    · rw [notify_tracked_suppressed s msg c u now hu hcd] at h
      cases h
      rfl
    · rw [notify_tracked_accepted s msg c u now hu hcd] at h
      have parts := putNotification_ok_parts _ _ _ _ h
      have hla : s2.lastAlert = dictSet s.lastAlert u now := parts.2.2.1
      unfold dictGet
      rw [hla, lookup_dictSet_ne _ _ _ _ hv]
  · intro hcd
    exact notify_tracked_suppressed s msg c u now hu hcd

/-- C6 witness: a suppressed call for key u leaves the whole state — in
particular the entry of the distinct key v — unchanged. -/
theorem C6_cooldown_frame_witness :
    AlertSystem.notify
      (({ notifiers := [], pqueue := [], running := true,
          lastAlert := [("u", 100), ("v", 7)] } : AlertSystem Unit)) ("m") false
      (some ("u")) 200 =
      .ok ({ notifiers := [], pqueue := [], running := true,
             lastAlert := [("u", 100), ("v", 7)] }) ∧
    dictGet [("u", 100), ("v", 7)] ("v") 0 = 7 := by
  have h := C6_cooldown_frame Unit
      ({ notifiers := [], pqueue := [], running := true,
         lastAlert := [("u", 100), ("v", 7)] }) ("m") false ("u") ("v") 200
      rfl (by decide)
  exact ⟨h.2 (by decide), rfl⟩

/-- C7: graceful degrade of the chat-bot channel.  If the bot credential
or the destination identifier is absent or empty, `send` is a no-op
success: it returns without attempting network I/O, and its result does
not depend on the network oracle at all.  When both are present, the
network call runs inside `try/except Exception`, so for every network
behavior the call returns normally (`isOk`, first conjunct) — a failure
is only recorded in the error log, never propagated out of `send`. -/
theorem C7_telegram_graceful_degrade (t : TelegramNotifier) (note : Notification)
    (net net2 : String → String → String → Except String Unit) :
    (Except.isOk (t.send note net) = true) ∧
    (optFalsy t.token = true ∨ optFalsy t.chat_id = true →
        t.send note net = .ok { attempted := false, failureLogged := none } ∧
        t.send note net = t.send note net2) ∧
    (optFalsy t.token = false → optFalsy t.chat_id = false →
        ∃ r, t.send note net = .ok r ∧ r.attempted = true) := by
  by_cases hf : (optFalsy t.token || optFalsy t.chat_id) = true
  · refine ⟨?_, ?_, ?_⟩
    · simp [TelegramNotifier.send, hf, Except.isOk, Except.toBool]
    · intro _
      constructor <;> simp [TelegramNotifier.send, hf]
    · intro h1 h2
      rw [h1, h2] at hf
      simp at hf
  · have hf2 : (optFalsy t.token || optFalsy t.chat_id) = false := by
      simpa using hf
    refine ⟨?_, ?_, ?_⟩
    · unfold TelegramNotifier.send
      rw [if_neg (by simp [hf2])]
      dsimp only []
      split <;> rfl
    · intro hdis
      exfalso
      rcases hdis with h | h <;> simp [h] at hf2
    · intro _ _
      unfold TelegramNotifier.send
      rw [if_neg (by simp [hf2])]
      dsimp only []
      split
      · exact ⟨{ attempted := true, failureLogged := none }, rfl, rfl⟩
      · exact ⟨_, rfl, rfl⟩

/-- C7 witness: a channel missing its token succeeds as a no-op even
against a network that always fails; a fully configured channel returns
normally, with the attempt recorded, against the same failing network. -/
theorem C7_telegram_graceful_degrade_witness :
    TelegramNotifier.send ({ token := none, chat_id := some ("c") })
        ({ message := "m", priority := 1 }) (fun _ _ _ => .error ("down")) =
      .ok { attempted := false, failureLogged := none } ∧
    (∃ r, TelegramNotifier.send ({ token := some ("t"), chat_id := some ("c") })
        ({ message := "m", priority := 1 }) (fun _ _ _ => .error ("down")) = .ok r ∧
        r.attempted = true) := by
  constructor
  · exact ((C7_telegram_graceful_degrade ({ token := none, chat_id := some ("c") })
      ({ message := "m", priority := 1 }) (fun _ _ _ => .error ("down"))
      (fun _ _ _ => .error ("down"))).2.1 (Or.inl rfl)).1
  · exact (C7_telegram_graceful_degrade ({ token := some ("t"), chat_id := some ("c") })
      ({ message := "m", priority := 1 }) (fun _ _ _ => .error ("down"))
      (fun _ _ _ => .error ("down"))).2.2 rfl rfl

/-- C8 counterexample: the claim says a chat-bot channel is registered
only if both the bot credential and the destination identifier are
present; with the token present but the chat id absent, `main` still
registers the chat-bot channel, because its guard tests only
`config.get_token()`. -/
theorem C8_registered_without_chat_id :
    RegChannel.telegram { token := some ("t"), chat_id := none } ∈
      mainChannels (some ("t")) none := by
  unfold mainChannels optFalsy
  rw [if_neg (by decide)]
  simp

/-- C8 (amended): a chat-bot channel is in the startup registry iff the
bot credential is present and non-empty; the destination identifier is
not consulted at registration (a channel registered without one
degrades to a no-op at delivery time, see C7). -/
theorem C8_registration_amended :
    ∀ (token chat_id : Option String),
      (mainChannels token chat_id).any RegChannel.isTelegram = !(optFalsy token) := by
  intro token chat_id
  unfold mainChannels
  cases h : optFalsy token <;> simp [h, RegChannel.isTelegram]

/-- C9: the claim requires the cooldown check and the recording of the
new last-alert time to happen atomically under mutual exclusion, so two
concurrent notify callers for one subject key can never both pass within
one window.  The source takes no lock around lines 92–96: under the
legal interleaving in which both threads read `_last_alert` before
either writes it, both callers pass (first two components `true`) even
though their clock readings, 2000 and 2001, lie well inside one 1800 s
window — a test-then-set race the claim rules out. -/
theorem C9_race_both_pass :
    notifyRaceSchedule [] ("u") 2000 2001 = (true, true, [("u", 2001)]) ∧
    ((2001 : Int) - 2000 < 1800) := by
  constructor
  · simp [notifyRaceSchedule, dictGet, dictSet]
  · norm_num

/-- C10: first-alert epoch sentinel.  For a subject key with no
recorded entry, `_last_alert.get(key, 0)` yields the epoch default 0,
so the very first tracked notify call is suppressed (returns with the
state unchanged) exactly when the clock value is below 1800. -/
theorem C10_epoch_sentinel (χ : Type) (s : AlertSystem χ) (msg : String) (c : Bool)
    (u : String) (now : Int) (hu : u.isEmpty = false)
    (hnone : s.lastAlert.lookup u = none) :
    (AlertSystem.notify s msg c (some u) now = .ok s) ↔ now < 1800 := by
  have hget : dictGet s.lastAlert u 0 = 0 := by
    simp [dictGet, hnone]
  constructor
  · intro h
    by_contra hge
    have hcd : ¬ now - dictGet s.lastAlert u 0 < 1800 := by
      rw [hget]; omega
    rw [notify_tracked_accepted s msg c u now hu hcd] at h
    have parts := putNotification_ok_parts _ _ _ _ h
    have hlen := parts.2.2.2
    simp at hlen
  · intro hlt
    exact notify_tracked_suppressed s msg c u now hu (by rw [hget]; omega)

/-- C10 witness: at simulated clock 7, the first alert for a fresh
subject key is suppressed. -/
theorem C10_epoch_sentinel_witness :
    AlertSystem.notify (AlertSystem.init Unit) ("m") false (some ("k")) 7 =
      .ok (AlertSystem.init Unit) :=
  (C10_epoch_sentinel Unit (AlertSystem.init Unit) ("m") false ("k") 7 rfl rfl).mpr
    (by norm_num)

end SpellHunter
